import Mathlib

/-!
Verification of the geocoding core of `src/agent/lambda_function.py`.

The Python module is shallowly embedded as follows.

* Python floats are modelled as real numbers; the builtin `round` on floats
  (round half to even) is modelled by `roundHalfEven` below.
* Python dictionaries that travel through the geocoding code are modelled as
  association lists of `String × JValue` built in insertion order
  (`Obj` below); dictionaries produced by the module itself never repeat a
  key.  `k in d` is `hasKey`, `d[k]` is `getKeyE` (raising `KeyError` when
  absent), `d.get(k, v)` is `getD`, and item assignment is `dictSet`.
* Fallible Python code is embedded with `Except PyError`; an uncaught Python
  exception is an `Except.error` value.
* The three provider adapters (`geocode_opencage`, `geocode_google`,
  `geocode_nominatim`) perform HTTP calls; per their contract they catch
  every exception internally and return either `None` or a result
  dictionary, so they are modelled as oracle functions
  `String → Option Obj` (the `Providers` structure).  Functions that track
  which adapters were invoked return, next to their value, the list of
  adapter identifiers invoked, in call order.
* The Neptune graph helpers imported from `neptune_connection.py` are
  external network collaborators; they are modelled as oracles that may
  raise (`NeptuneOps`).
-/

/-- Python exception values, reduced to the information the embedded code
distinguishes: the exception class and its message / offending name. -/
inductive PyError where
  | keyError (k : String)
  | nameError (n : String)
  | typeError (msg : String)
  | valueError (msg : String)
deriving Repr, DecidableEq

/-- Rendering used where the source interpolates `str(e)` into a result
dictionary.  Quotation marks that CPython adds around key names are not
reproduced. -/
def pyErrStr : PyError → String
  | .keyError k => k
  | .nameError n => n
  | .typeError m => m
  | .valueError m => m

/-- JSON-like values held in the dictionaries of the module.  Python ints
and floats are kept distinct; floats are modelled as real numbers. -/
inductive JValue where
  | null : JValue
  | bool (b : Bool) : JValue
  | str (s : String) : JValue
  | int (n : ℤ) : JValue
  | num (x : ℝ) : JValue
  | arr (xs : List JValue) : JValue
  | obj (fields : List (String × JValue)) : JValue

/-- A Python dict with string keys, in insertion order. -/
abbrev Obj := List (String × JValue)

/-- Python `k in d`. -/
def hasKey (o : Obj) (k : String) : Bool :=
  o.any (fun p => p.1 = k)

/-- Key lookup (first occurrence; dictionaries built by the module have
unique keys). -/
def getJ (o : Obj) (k : String) : Option JValue :=
  (o.find? (fun p => p.1 = k)).map (fun p => p.2)

/-- Python `d[k]`: raises `KeyError` when the key is absent. -/
def getKeyE (o : Obj) (k : String) : Except PyError JValue :=
  match getJ o k with
  | some v => .ok v
  | none => .error (.keyError k)

/-- Python `d.get(k, default)`. -/
def getD (o : Obj) (k : String) (d : JValue) : JValue :=
  (getJ o k).getD d

/-- Python `d[k] = v`: overwrite in place when present, append otherwise. -/
def dictSet (o : Obj) (k : String) (v : JValue) : Obj :=
  if hasKey o k then o.map (fun p => if p.1 = k then (k, v) else p)
  else o ++ [(k, v)]

/-- A Python number as a real: ints, floats and bools (bool is an int
subclass in Python) are accepted by the arithmetic the module performs. -/
def jNum : JValue → Option ℝ
  | .int n => some (n : ℝ)
  | .num x => some x
  | .bool b => some (if b then 1 else 0)
  | _ => none

/-- Optional-value variant of `jNum`. -/
def jNumOpt : Option JValue → Option ℝ
  | some v => jNum v
  | none => none

/-- The CPython builtin `round` on a float: round to the nearest integer,
ties to the even integer. -/
noncomputable def roundHalfEven (x : ℝ) : ℤ :=
  if Int.fract x = 1 / 2 then (if 2 ∣ ⌊x⌋ then ⌊x⌋ else ⌊x⌋ + 1)
  else round x

/-- Source lines 50-70: `scale_coordinates` multiplies each coordinate by
`1_000_000` and applies `int(round(...))`. -/
noncomputable def scale_coordinates (latitude longitude : ℝ) : ℤ × ℤ :=
  (roundHalfEven (latitude * 1000000), roundHalfEven (longitude * 1000000))

theorem roundHalfEven_intCast (n : ℤ) : roundHalfEven (n : ℝ) = n := by
  unfold roundHalfEven
  rw [Int.fract_intCast]
  norm_num

theorem abs_roundHalfEven_sub (x : ℝ) : |(roundHalfEven x : ℝ) - x| ≤ 1 / 2 := by
  unfold roundHalfEven
  split_ifs with h h2
  · have hx : x - (⌊x⌋ : ℝ) = Int.fract x := Int.self_sub_floor x
    rw [abs_sub_comm, hx, h, abs_of_nonneg (by norm_num : (0:ℝ) ≤ 1/2)]
  · have hx : ((⌊x⌋ : ℝ) + 1) - x = 1 - Int.fract x := by
      rw [← Int.self_sub_floor x]; ring
    push_cast
    rw [hx, h]
    rw [show (1 : ℝ) - 1/2 = 1/2 by norm_num,
      abs_of_nonneg (by norm_num : (0:ℝ) ≤ 1/2)]
  · rw [abs_sub_comm]
    exact abs_sub_round x

theorem roundHalfEven_nonneg {x : ℝ} (hx : 0 ≤ x) : 0 ≤ roundHalfEven x := by
  unfold roundHalfEven
  split_ifs with h h2
  · exact Int.floor_nonneg.mpr hx
  · have := Int.floor_nonneg.mpr hx
    omega
  · rw [round_eq]
    exact Int.floor_nonneg.mpr (by linarith)

/-- C9: `scale_coordinates` returns each coordinate times `1_000_000`
rounded to the nearest integer (half-to-even tie rule, the rule of the
CPython `round` builtin), the documented example scales to
`(45515200, -122678400)`, and dividing a scaled value by `1_000_000`
reconstructs the input within `1e-6` (indeed within `5e-7`), for every
input. -/
theorem C9_scale_coordinates_spec :
    scale_coordinates 45.5152 (-122.6784) = (45515200, -122678400) ∧
    (∀ lat lon : ℝ,
      |((scale_coordinates lat lon).1 : ℝ) - lat * 1000000| ≤ 1 / 2 ∧
      |((scale_coordinates lat lon).2 : ℝ) - lon * 1000000| ≤ 1 / 2 ∧
      |((scale_coordinates lat lon).1 : ℝ) / 1000000 - lat| ≤ 1 / 1000000 ∧
      |((scale_coordinates lat lon).2 : ℝ) / 1000000 - lon| ≤ 1 / 1000000) := by
  constructor
  · unfold scale_coordinates
    have h1 : (45.5152 : ℝ) * 1000000 = ((45515200 : ℤ) : ℝ) := by norm_num
    have h2 : (-122.6784 : ℝ) * 1000000 = ((-122678400 : ℤ) : ℝ) := by norm_num
    rw [h1, h2, roundHalfEven_intCast, roundHalfEven_intCast]
  · intro lat lon
    have hla := abs_roundHalfEven_sub (lat * 1000000)
    have hlo := abs_roundHalfEven_sub (lon * 1000000)
    refine ⟨hla, hlo, ?_, ?_⟩
    · have he : ((scale_coordinates lat lon).1 : ℝ) / 1000000 - lat =
          (((scale_coordinates lat lon).1 : ℝ) - lat * 1000000) / 1000000 := by
        ring
      rw [he, abs_div, abs_of_pos (by norm_num : (0:ℝ) < 1000000)]
      unfold scale_coordinates at hla ⊢
      simp only at hla ⊢
      linarith [abs_nonneg ((roundHalfEven (lat * 1000000) : ℝ) - lat * 1000000)]
    · have he : ((scale_coordinates lat lon).2 : ℝ) / 1000000 - lon =
          (((scale_coordinates lat lon).2 : ℝ) - lon * 1000000) / 1000000 := by
        ring
      rw [he, abs_div, abs_of_pos (by norm_num : (0:ℝ) < 1000000)]
      unfold scale_coordinates at hlo ⊢
      simp only at hlo ⊢
      linarith [abs_nonneg ((roundHalfEven (lon * 1000000) : ℝ) - lon * 1000000)]

/-- `round(x, 2)` in the source (lines 430-431): round to two decimal
places with the CPython rounding rule. -/
noncomputable def round2 (x : ℝ) : ℝ :=
  ((roundHalfEven (x * 100) : ℤ) : ℝ) / 100

/-- `math.radians`: degrees to radians. -/
noncomputable def radians (x : ℝ) : ℝ :=
  x * Real.pi / 180

/-- The two-argument arctangent of the C math library (`math.atan2(y, x)`),
with signed zeros ignored. -/
noncomputable def atan2 (y x : ℝ) : ℝ :=
  if 0 < x then Real.arctan (y / x)
  else if x < 0 then
    (if 0 ≤ y then Real.arctan (y / x) + Real.pi
     else Real.arctan (y / x) - Real.pi)
  else
    (if 0 < y then Real.pi / 2
     else if y < 0 then -(Real.pi / 2)
     else 0)

/-- Source lines 399-405: the haversine intermediate value `a`. -/
noncomputable def hav_a (lat1 lon1 lat2 lon2 : ℝ) : ℝ :=
  Real.sin ((radians lat2 - radians lat1) / 2) ^ 2 +
    Real.cos (radians lat1) * Real.cos (radians lat2) *
      Real.sin ((radians lon2 - radians lon1) / 2) ^ 2

/-- Source lines 397-408: `distance_km` before rounding, with Earth radius
6371 km.  `math.sqrt` is modelled by `Real.sqrt`; for `1 - a < 0` (which
needs a latitude outside `[-90, 90]`) CPython would raise a domain error
where `Real.sqrt` returns 0. -/
noncomputable def hav_distance_km (lat1 lon1 lat2 lon2 : ℝ) : ℝ :=
  6371 * (2 * atan2 (Real.sqrt (hav_a lat1 lon1 lat2 lon2))
    (Real.sqrt (1 - hav_a lat1 lon1 lat2 lon2)))

theorem atan2_nonneg {y x : ℝ} (hy : 0 ≤ y) (hx : 0 ≤ x) : 0 ≤ atan2 y x := by
  unfold atan2
  split_ifs with h1 h2 h3 h4
  all_goals first
    | (rw [← Real.arctan_zero]
       exact Real.arctan_strictMono.monotone (div_nonneg hy hx))
    | linarith [Real.pi_pos]

theorem hav_distance_km_nonneg (lat1 lon1 lat2 lon2 : ℝ) :
    0 ≤ hav_distance_km lat1 lon1 lat2 lon2 := by
  unfold hav_distance_km
  have h := atan2_nonneg (Real.sqrt_nonneg (hav_a lat1 lon1 lat2 lon2))
    (Real.sqrt_nonneg (1 - hav_a lat1 lon1 lat2 lon2))
  linarith

theorem hav_a_self (lat lon : ℝ) : hav_a lat lon lat lon = 0 := by
  unfold hav_a
  simp

theorem atan2_zero_one : atan2 0 1 = 0 := by
  unfold atan2
  norm_num

theorem hav_distance_km_self (lat lon : ℝ) : hav_distance_km lat lon lat lon = 0 := by
  unfold hav_distance_km
  rw [hav_a_self]
  simp [atan2_zero_one]

theorem round2_zero : round2 0 = 0 := by
  unfold round2 roundHalfEven
  norm_num

theorem round2_nonneg {x : ℝ} (hx : 0 ≤ x) : 0 ≤ round2 x := by
  unfold round2
  have h : (0 : ℤ) ≤ roundHalfEven (x * 100) := roundHalfEven_nonneg (by linarith)
  have h2 : (0 : ℝ) ≤ ((roundHalfEven (x * 100) : ℤ) : ℝ) := by exact_mod_cast h
  linarith

/-- C8 (amended): the reported `distance_km` (the haversine value rounded
to two decimals) is nonnegative for every pair of input coordinates, and
identical coordinate pairs yield exactly `0.0` (without any exception: the
computation is total and `atan2 0 1 = 0`).  The converse of the zero case
is refuted separately. -/
theorem C8_distance_nonneg_and_zero_on_identical :
    (∀ lat1 lon1 lat2 lon2 : ℝ,
      0 ≤ round2 (hav_distance_km lat1 lon1 lat2 lon2)) ∧
    (∀ lat lon : ℝ, round2 (hav_distance_km lat lon lat lon) = 0) := by
  constructor
  · intro lat1 lon1 lat2 lon2
    exact round2_nonneg (hav_distance_km_nonneg lat1 lon1 lat2 lon2)
  · intro lat lon
    rw [hav_distance_km_self, round2_zero]

/-- C8 (counterexample): the claim that `distance_km = 0` only for
identical coordinate pairs is false: the two distinct inputs
`(90, 0)` and `(90, 10)` (both at latitude 90 with different longitudes)
produce `distance_km = 0`, because `cos (pi / 2) = 0` annihilates the
longitude term of the haversine formula. -/
theorem C8_zero_distance_distinct_inputs :
    round2 (hav_distance_km 90 0 90 10) = 0 ∧
    ((90 : ℝ), (0 : ℝ)) ≠ ((90 : ℝ), (10 : ℝ)) := by
  constructor
  · have hr : radians 90 = Real.pi / 2 := by
      unfold radians; ring
    have ha : hav_a 90 0 90 10 = 0 := by
      unfold hav_a
      rw [hr, Real.cos_pi_div_two]
      simp
    unfold hav_distance_km
    rw [ha]
    simp [atan2_zero_one, round2_zero]
  · intro h
    have := congrArg Prod.snd h
    norm_num at this

/-- The environment-derived module configuration (source lines 25-27),
read once at import time. -/
structure Config where
  OPENCAGE_API_KEY : String
  GOOGLE_MAPS_API_KEY : String
  GEOCODING_PROVIDER : String

/-- Oracles for the three provider adapters.  Each adapter catches all of
its exceptions and returns either `none` (provider unusable) or a result
dictionary, so an adapter is precisely a function `String → Option Obj`. -/
structure Providers where
  opencage : String → Option Obj
  google : String → Option Obj
  nominatim : String → Option Obj

/-- The provider identifier selected by the if-chain of source lines
89-94: opencage if configured and keyed, else google if configured and
keyed, else nominatim. -/
def chosen_provider (cfg : Config) : String :=
  if cfg.GEOCODING_PROVIDER = "opencage" ∧ cfg.OPENCAGE_API_KEY ≠ "" then "opencage"
  else if cfg.GEOCODING_PROVIDER = "google" ∧ cfg.GOOGLE_MAPS_API_KEY ≠ "" then "google"
  else "nominatim"

/-- Source lines 78-84: the query string is the comma-joined list of the
city and the truthy (present and non-empty) state and country values. -/
def buildQuery (city : String) (state country : Option String) : String :=
  String.intercalate ", "
    ([city] ++
      (match state with
       | some s => if s = "" then [] else [s]
       | none => []) ++
      (match country with
       | some s => if s = "" then [] else [s]
       | none => []))

/-- Source lines 96-112: what `get_coordinates` does with the adapter
return value, inside its catch-all `try`.
- Adapter returned `None`: `'latitude' in result` raises a `TypeError`,
  which the `except` turns into an error dictionary with the query.
- Result has both `latitude` and `longitude`: scaled coordinates are
  computed and stored; if those values are not numbers, the arithmetic in
  `scale_coordinates` raises a `TypeError`, again caught into an error
  dictionary.
- Otherwise the result passes through unchanged. -/
noncomputable def geocode_post (query : String) (res : Option Obj) : Obj :=
  match res with
  | none =>
    [("error", .str "argument of type NoneType is not iterable"),
     ("query", .str query)]
  | some result =>
    if hasKey result "latitude" && hasKey result "longitude" then
      match jNumOpt (getJ result "latitude"), jNumOpt (getJ result "longitude") with
      | some la, some lo =>
        dictSet (dictSet result "scaled_latitude" (.int (scale_coordinates la lo).1))
          "scaled_longitude" (.int (scale_coordinates la lo).2)
      | _, _ =>
        [("error", .str "unsupported operand type for multiply"),
         ("query", .str query)]
    else result

/-- Source lines 72-112: `get_coordinates`.  Returns the result
dictionary together with the list of adapter identifiers invoked (always
exactly one). -/
noncomputable def get_coordinates (cfg : Config) (P : Providers) (city : String)
    (state country : Option String) : Obj × List String :=
  let query := buildQuery city state country
  let rc : Option Obj × List String :=
    if cfg.GEOCODING_PROVIDER = "opencage" ∧ cfg.OPENCAGE_API_KEY ≠ "" then
      (P.opencage query, ["opencage"])
    else if cfg.GEOCODING_PROVIDER = "google" ∧ cfg.GOOGLE_MAPS_API_KEY ≠ "" then
      (P.google query, ["google"])
    else (P.nominatim query, ["nominatim"])
  (geocode_post query rc.1, rc.2)

theorem get_coordinates_calls (cfg : Config) (P : Providers) (city : String)
    (state country : Option String) :
    (get_coordinates cfg P city state country).2 = [chosen_provider cfg] := by
  unfold get_coordinates chosen_provider
  split_ifs <;> rfl

/-- Python truthiness test `not city_name or not city_name.strip()`
(source line 327): true exactly when the string is empty or consists of
whitespace only. -/
def pyBlank (s : String) : Bool :=
  s.data.all Char.isWhitespace

/-- Source lines 322-369: `get_coordinates_with_fallback`.  After the
blank-city guard, the function builds the dictionary
`{'opencage': get_coordinates_opencage, 'google': get_coordinates_google,
'nominatim': get_coordinates_nominatim}` (lines 334-338); none of those
three names is defined anywhere in the module (the adapters are named
`geocode_opencage`, `geocode_google` and `geocode_nominatim`), so
evaluating the first dictionary value raises
`NameError: name get_coordinates_opencage is not defined` before any
provider can be called.  The second component is the list of adapter
identifiers invoked, which is therefore empty on every path. -/
def get_coordinates_with_fallback (city_name : String) :
    Except PyError Obj × List String :=
  if pyBlank city_name then
    (.ok [("success", .bool false), ("city", .str city_name),
      ("error", .str "City name cannot be empty")], [])
  else
    (.error (.nameError "get_coordinates_opencage"), [])

/-- C1: on any non-blank city name, `get_coordinates_with_fallback` does
not run its documented preferred-then-fallback provider sequence at all:
building the provider table raises a `NameError` (the table refers to the
undefined names `get_coordinates_opencage` / `get_coordinates_google` /
`get_coordinates_nominatim`; the adapters are actually named
`geocode_*`), so for the input "Portland" the call raises and invokes
zero provider adapters. -/
theorem C1_fallback_raises_name_error :
    get_coordinates_with_fallback "Portland" =
      (.error (.nameError "get_coordinates_opencage"), []) := by
  rfl

/-- C7: a blank city name (empty or all-whitespace) makes
`get_coordinates_with_fallback` return immediately a `success=false`
result carrying the error "City name cannot be empty", with zero provider
adapters invoked. -/
theorem C7_blank_city_short_circuit (city : String) (h : pyBlank city = true) :
    get_coordinates_with_fallback city =
      (.ok [("success", .bool false), ("city", .str city),
        ("error", .str "City name cannot be empty")], []) := by
  unfold get_coordinates_with_fallback
  rw [h]
  rfl

/-- C7 witness: the all-whitespace input three spaces. -/
theorem C7_blank_city_witness :
    pyBlank "   " = true ∧
    get_coordinates_with_fallback "   " =
      (.ok [("success", .bool false), ("city", .str "   "),
        ("error", .str "City name cannot be empty")], []) :=
  ⟨by decide, C7_blank_city_short_circuit "   " (by decide)⟩

/-- A looked-up dictionary value as a number, raising the `TypeError` that
`math.radians` would raise on a non-number. -/
def jNumE (v : JValue) : Except PyError ℝ :=
  match jNum v with
  | some x => .ok x
  | none => .error (.typeError "must be real number")

/-- Source lines 392-432: the body of `calculate_distance` after both
geocode results passed the error check.  Key lookups and number
conversions are sequenced exactly as CPython evaluates them: the four
coordinate lookups of lines 393-394, the four `radians` conversions of
lines 399-400, the distance arithmetic, then the scaled-coordinate
lookups in the order the output dictionary literal evaluates them. -/
noncomputable def distance_payload (coords1 coords2 : Obj) (city1 city2 : String) :
    Except PyError Obj :=
  match getKeyE coords1 "latitude" with
  | .error er => .error er
  | .ok v1 =>
  match getKeyE coords1 "longitude" with
  | .error er => .error er
  | .ok v2 =>
  match getKeyE coords2 "latitude" with
  | .error er => .error er
  | .ok v3 =>
  match getKeyE coords2 "longitude" with
  | .error er => .error er
  | .ok v4 =>
  match jNumE v1 with
  | .error er => .error er
  | .ok la1 =>
  match jNumE v2 with
  | .error er => .error er
  | .ok lo1 =>
  match jNumE v3 with
  | .error er => .error er
  | .ok la2 =>
  match jNumE v4 with
  | .error er => .error er
  | .ok lo2 =>
  let dkm := hav_distance_km la1 lo1 la2 lo2
  let dmi := dkm * 0.621371
  match getKeyE coords1 "scaled_latitude" with
  | .error er => .error er
  | .ok sla1 =>
  match getKeyE coords1 "scaled_longitude" with
  | .error er => .error er
  | .ok slo1 =>
  match getKeyE coords2 "scaled_latitude" with
  | .error er => .error er
  | .ok sla2 =>
  match getKeyE coords2 "scaled_longitude" with
  | .error er => .error er
  | .ok slo2 =>
  .ok [("city1", .obj [("name", .str city1), ("latitude", v1),
          ("longitude", v2), ("scaled_latitude", sla1),
          ("scaled_longitude", slo1),
          ("country", getD coords1 "country" (.str "")),
          ("formatted_address", getD coords1 "formatted_address" (.str ""))]),
       ("city2", .obj [("name", .str city2), ("latitude", v3),
          ("longitude", v4), ("scaled_latitude", sla2),
          ("scaled_longitude", slo2),
          ("country", getD coords2 "country" (.str "")),
          ("formatted_address", getD coords2 "formatted_address" (.str ""))]),
       ("distance_km", .num (round2 dkm)),
       ("distance_miles", .num (round2 dmi))]

/-- Source lines 374-432: `calculate_distance`.  Both cities are geocoded
first (lines 384-385); if either result carries an `error` key, that
result is returned on its own (lines 387-390); otherwise the distance
payload is computed.  The second component lists the adapters invoked. -/
noncomputable def calculate_distance (cfg : Config) (P : Providers)
    (city1 city2 : String) (s1 s2 c1 c2 : Option String) :
    Except PyError Obj × List String :=
  let g1 := get_coordinates cfg P city1 s1 c1
  let g2 := get_coordinates cfg P city2 s2 c2
  let calls := g1.2 ++ g2.2
  if hasKey g1.1 "error" then (.ok g1.1, calls)
  else if hasKey g2.1 "error" then (.ok g2.1, calls)
  else (distance_payload g1.1 g2.1 city1 city2, calls)

/-- Oracles for the Neptune graph helpers imported from
`neptune_connection.py` (external network collaborators). -/
structure NeptuneOps where
  find_nearest_vertices : ℤ → ℤ → ℤ → Except PyError (List JValue)
  get_vertex_by_id : String → Except PyError (Option Obj)
  find_path_between_vertices : String → String → ℤ → Except PyError (Option Obj)
  get_vertex_neighbors : String → Option String → String → ℤ →
    Except PyError (List JValue)
  test_connection : Unit → Except PyError Obj

set_option linter.unusedVariables false in
/-- Source lines 435-480: `get_nearest_graph_vertices`.  The geocoding
steps are commented out in the source; the Neptune query runs with the
hard-coded scaled coordinates 45520247 / -122674194 and limit 2.  When the
query raises, the `except` block itself refers to the (commented-out, so
undefined) variable `coords` and raises `NameError: coords` out of the
function. -/
def get_nearest_graph_vertices (N : NeptuneOps) (city : String)
    (state country : Option String) (limit : ℤ) : Except PyError Obj :=
  match N.find_nearest_vertices 45520247 (-122674194) 2 with
  | .ok nearest =>
    .ok [("nearest_vertices", .arr nearest), ("count", .int (nearest.length : ℤ))]
  | .error _ => .error (.nameError "coords")

/-- Source lines 483-499: `get_graph_vertex` catches its exceptions. -/
def get_graph_vertex (N : NeptuneOps) (vertex_id : String) : Obj :=
  match N.get_vertex_by_id vertex_id with
  | .ok none => [("error", .str ("Vertex not found: " ++ vertex_id))]
  | .ok (some v) => v
  | .error er => [("error", .str ("Failed to retrieve vertex: " ++ pyErrStr er))]

/-- Source lines 502-522: `find_graph_path` catches its exceptions. -/
def find_graph_path (N : NeptuneOps) (start_id end_id : String)
    (max_hops : ℤ) : Obj :=
  match N.find_path_between_vertices start_id end_id max_hops with
  | .ok none =>
    [("error", .str ("No path found between " ++ start_id ++ " and " ++ end_id)),
     ("start_vertex_id", .str start_id), ("end_vertex_id", .str end_id),
     ("max_hops", .int max_hops)]
  | .ok (some p) => p
  | .error er => [("error", .str ("Failed to find path: " ++ pyErrStr er))]

/-- Source lines 525-543: `get_neighbors` catches its exceptions. -/
def get_neighbors (N : NeptuneOps) (vertex_id : String)
    (relationship_type : Option String) (direction : String) (limit : ℤ) : Obj :=
  match N.get_vertex_neighbors vertex_id relationship_type direction limit with
  | .ok ns =>
    [("vertex_id", .str vertex_id),
     ("relationship_type",
       match relationship_type with
       | some s => .str s
       | none => .null),
     ("direction", .str direction),
     ("neighbors", .arr ns), ("count", .int (ns.length : ℤ))]
  | .error er => [("error", .str ("Failed to get neighbors: " ++ pyErrStr er))]

/-- Source lines 546-555: `test_neptune_connection` catches its
exceptions. -/
def test_neptune_connection (N : NeptuneOps) : Obj :=
  match N.test_connection () with
  | .ok r => r
  | .error er => [("status", .str "error"), ("error", .str (pyErrStr er))]

/-- The inbound event shape the handler reads (source lines 565-568,
using `event.get(..., default)` for each field).  A parameter entry is a
dictionary, modelled as an association list so that entries missing the
`name` or `value` key are representable. -/
structure Event where
  actionGroup : String
  apiPath : String
  httpMethod : String
  parameters : List (List (String × String))

/-- String lookup in a parameter entry dictionary. -/
def lookupStr (l : List (String × String)) (k : String) : Option String :=
  (l.find? (fun q => q.1 = k)).map (fun q => q.2)

/-- Source line 570: `params = {p['name']: p['value'] for p in parameters}`.
Each entry must carry both keys, otherwise a `KeyError` is raised; this
happens before the `try` block of the handler. -/
def extractParams : List (List (String × String)) →
    Except PyError (List (String × String))
  | [] => .ok []
  | p :: ps =>
    match lookupStr p "name" with
    | none => .error (.keyError "name")
    | some n =>
      match lookupStr p "value" with
      | none => .error (.keyError "value")
      | some v =>
        match extractParams ps with
        | .error e => .error e
        | .ok rest => .ok ((n, v) :: rest)

/-- `params.get(k)`: the comprehension makes later entries win. -/
def pyGet (ps : List (String × String)) (k : String) : Option String :=
  (ps.reverse.find? (fun q => q.1 = k)).map (fun q => q.2)

/-- `params.get(k, default)`. -/
def pyGetD (ps : List (String × String)) (k d : String) : String :=
  (pyGet ps k).getD d

/-- `int(params.get(k, default))`: the default is already an int; a
present value is parsed and raises `ValueError` when not an integer
literal. -/
def intParam (ps : List (String × String)) (k : String) (d : ℤ) :
    Except PyError ℤ :=
  match pyGet ps k with
  | none => .ok d
  | some s =>
    match s.toInt? with
    | some n => .ok n
    | none => .error (.valueError s)

/-- Source lines 574-616: the `try` block of `lambda_handler`, routing on
`apiPath`.  Its value is the result dictionary, or the exception that the
`except` at line 620 will catch; the second component lists the geocoding
adapters invoked. -/
noncomputable def dispatch (cfg : Config) (P : Providers) (N : NeptuneOps)
    (api_path : String) (ps : List (String × String)) :
    Except PyError Obj × List String :=
  if api_path = "/coordinates" then
    let g := get_coordinates cfg P (pyGetD ps "city" "")
      (pyGet ps "state") (pyGet ps "country")
    (.ok g.1, g.2)
  else if api_path = "/distance" then
    calculate_distance cfg P (pyGetD ps "city1" "") (pyGetD ps "city2" "")
      (pyGet ps "state1") (pyGet ps "state2")
      (pyGet ps "country1") (pyGet ps "country2")
  else if api_path = "/nearest-vertices" then
    (match intParam ps "limit" 2 with
     | .error e => .error e
     | .ok n =>
       get_nearest_graph_vertices N (pyGetD ps "city" "")
         (pyGet ps "state") (pyGet ps "country") n, [])
  else if api_path = "/vertex" then
    (.ok (get_graph_vertex N (pyGetD ps "vertex_id" "")), [])
  else if api_path = "/path" then
    (match intParam ps "max_hops" 5 with
     | .error e => .error e
     | .ok n =>
       .ok (find_graph_path N (pyGetD ps "start_vertex_id" "")
         (pyGetD ps "end_vertex_id" "") n), [])
  else if api_path = "/neighbors" then
    (match intParam ps "limit" 10 with
     | .error e => .error e
     | .ok n =>
       .ok (get_neighbors N (pyGetD ps "vertex_id" "")
         (pyGet ps "relationship_type") (pyGetD ps "direction" "both") n), [])
  else if api_path = "/test-connection" then
    (.ok (test_neptune_connection N), [])
  else
    (.ok [("error", .str ("Unknown API path: " ++ api_path))], [])

/-- The response envelope (source lines 625-638).  The constant
`messageVersion` field and the `application/json` nesting are structural
boilerplate that is not modelled; `body` holds the result dictionary that
the source serializes with `json.dumps`. -/
structure Envelope where
  actionGroup : String
  apiPath : String
  httpMethod : String
  httpStatusCode : Nat
  body : Obj

/-- Source lines 618-638: the envelope built from the `try` block outcome.
A caught exception becomes a 500 envelope whose body carries the error
message; otherwise the status is 200 unless the result dictionary carries
an `error` key, in which case it is 400 (line 618). -/
def mk_response (ag ap hm : String) (d : Except PyError Obj) : Envelope :=
  match d with
  | .ok r =>
    { actionGroup := ag, apiPath := ap, httpMethod := hm,
      httpStatusCode := if hasKey r "error" then 400 else 200, body := r }
  | .error e =>
    { actionGroup := ag, apiPath := ap, httpMethod := hm,
      httpStatusCode := 500, body := [("error", .str (pyErrStr e))] }

/-- Source lines 561-638: `lambda_handler`.  Parameter extraction (line
570) happens before the `try` block, so its exceptions propagate out of
the handler (an `Except.error` first component); everything raised inside
the routing block is caught and wrapped by `mk_response`. -/
noncomputable def lambda_handler (cfg : Config) (P : Providers) (N : NeptuneOps)
    (event : Event) : Except PyError Envelope × List String :=
  match extractParams event.parameters with
  | .error e => (.error e, [])
  | .ok params =>
    let d := dispatch cfg P N event.apiPath params
    (.ok (mk_response event.actionGroup event.apiPath event.httpMethod d.1), d.2)

/-- Whether an embedded computation completed without raising. -/
def isOkE {α : Type} (e : Except PyError α) : Bool :=
  match e with
  | .ok _ => true
  | .error _ => false

/-- The key list of a result dictionary, when no exception was raised. -/
def keysE (e : Except PyError Obj) : Option (List String) :=
  match e with
  | .ok r => some (r.map Prod.fst)
  | .error _ => none

/-- `hasKey` through `Except`: false when an exception was raised. -/
def hasKeyE (e : Except PyError Obj) (k : String) : Bool :=
  match e with
  | .ok r => hasKey r k
  | .error _ => false

/-- The status code of a returned envelope, when one was returned. -/
def statusOf (e : Except PyError Envelope) : Option Nat :=
  match e with
  | .ok env => some env.httpStatusCode
  | .error _ => none

/-- Test double: the default configuration of the module (no API keys,
provider `nominatim`). -/
def cfg0 : Config :=
  { OPENCAGE_API_KEY := "", GOOGLE_MAPS_API_KEY := "", GEOCODING_PROVIDER := "nominatim" }

/-- Test double: the no-match dictionary the Nominatim adapter returns
(source lines 306-311). -/
def noRes (q : String) : Obj :=
  [("success", .bool false), ("city", .str q),
   ("error", .str "No results found"),
   ("source", .str "Nominatim (OpenStreetMap)")]

/-- Test double: a match dictionary in the adapter shape (source lines
282-296), with integer test coordinates. -/
def okRes (q : String) : Obj :=
  [("success", .bool true), ("city", .str q),
   ("latitude", .int 45), ("longitude", .int (-122)),
   ("formatted_address", .str q), ("country", .str "Testland"),
   ("source", .str "Nominatim (OpenStreetMap)")]

/-- Test double providers: Nominatim finds every city except Atlantis and
Mu; the other adapters are unusable (return `None`). -/
def Pmix : Providers :=
  { opencage := fun _ => none, google := fun _ => none,
    nominatim := fun q =>
      if q = "Atlantis" ∨ q = "Mu" then some (noRes q) else some (okRes q) }

/-- Test double Neptune oracles: the database is unreachable. -/
def N0 : NeptuneOps :=
  { find_nearest_vertices := fun _ _ _ => .error (.typeError "offline"),
    get_vertex_by_id := fun _ => .error (.typeError "offline"),
    find_path_between_vertices := fun _ _ _ => .error (.typeError "offline"),
    get_vertex_neighbors := fun _ _ _ _ => .error (.typeError "offline"),
    test_connection := fun _ => .error (.typeError "offline") }

/-- Concrete event: a parameter entry without a `name` key. -/
def ev_c2 : Event :=
  { actionGroup := "", apiPath := "/coordinates", httpMethod := "GET",
    parameters := [[("value", "Portland")]] }

/-- C2 (counterexample): an event whose parameter entry lacks the `name`
key makes `lambda_handler` raise a `KeyError` that propagates out of the
handler, because the parameter comprehension of line 570 runs before the
`try` block: the claim that no exception ever propagates is false. -/
theorem C2_param_extraction_exception_escapes :
    (lambda_handler cfg0 Pmix N0 ev_c2).1 = .error (.keyError "name") := by
  rfl

/-- C2 (amended): once parameter extraction has succeeded, no exception
escapes `lambda_handler`: everything raised during routing and dispatch is
caught and converted into a response envelope. -/
theorem C2_no_exception_after_extraction (cfg : Config) (P : Providers)
    (N : NeptuneOps) (ev : Event)
    (h : isOkE (extractParams ev.parameters) = true) :
    isOkE (lambda_handler cfg P N ev).1 = true := by
  cases he : extractParams ev.parameters with
  | error e => rw [he] at h; simp [isOkE] at h
  | ok ps => simp [lambda_handler, he, isOkE]

/-- Concrete event: well-formed parameters, unknown path. -/
def ev_w2 : Event :=
  { actionGroup := "", apiPath := "/unknown", httpMethod := "GET",
    parameters := [[("name", "x"), ("value", "y")]] }

/-- C2 witness: a well-formed event is answered without an exception. -/
theorem C2_no_exception_witness :
    isOkE (extractParams ev_w2.parameters) = true ∧
    isOkE (lambda_handler cfg0 Pmix N0 ev_w2).1 = true :=
  ⟨by decide, C2_no_exception_after_extraction cfg0 Pmix N0 ev_w2 (by decide)⟩

/-- Concrete event: a geocode request for a city no provider knows. -/
def ev_c3 : Event :=
  { actionGroup := "ag", apiPath := "/coordinates", httpMethod := "GET",
    parameters := [[("name", "city"), ("value", "Atlantis")]] }

/-- C3 (counterexample): a geocode-not-found result is a soft failure, yet
the envelope carries status 400, not 200: line 618 maps every result
dictionary containing an `error` key to 400, and the adapter no-match
dictionary contains one. -/
theorem C3_not_found_gets_400 :
    statusOf (lambda_handler cfg0 Pmix N0 ev_c3).1 = some 400 ∧
    ¬ statusOf (lambda_handler cfg0 Pmix N0 ev_c3).1 = some 200 := by
  refine ⟨rfl, fun h => ?_⟩
  have h2 : (some 400 : Option Nat) = some 200 :=
    (rfl : statusOf (lambda_handler cfg0 Pmix N0 ev_c3).1 = some 400).symm.trans h
  simp at h2

/-- C3 (amended): for every envelope the handler returns, the status is
200 exactly when the result body has no `error` key; every result that
the try block produced carrying an `error` key (geocode-not-found
included) gets 400; and the status is 500 exactly when the try block
raised an exception that was caught at the dispatcher boundary — so the
status is always one of 200, 400, 500. -/
theorem C3_status_code_classification (cfg : Config) (P : Providers)
    (N : NeptuneOps) (ev : Event) (env : Envelope)
    (h : (lambda_handler cfg P N ev).1 = .ok env) :
    ((env.httpStatusCode = 200) ↔ hasKey env.body "error" = false) ∧
    (env.httpStatusCode = 200 ∨ env.httpStatusCode = 400 ∨
      env.httpStatusCode = 500) ∧
    (∀ ps r, extractParams ev.parameters = .ok ps →
      (dispatch cfg P N ev.apiPath ps).1 = .ok r →
      hasKey r "error" = true → env.httpStatusCode = 400) ∧
    (env.httpStatusCode = 500 ↔
      ∃ ps e, extractParams ev.parameters = .ok ps ∧
        (dispatch cfg P N ev.apiPath ps).1 = .error e) := by
  cases he : extractParams ev.parameters with
  | error e => simp [lambda_handler, he] at h
  | ok ps =>
    simp only [lambda_handler, he] at h
    cases hd : (dispatch cfg P N ev.apiPath ps).1 with
    | ok r =>
      rw [hd] at h
      injection h with h
      subst h
      refine ⟨?_, ?_, ?_, ?_⟩
      · cases hk : hasKey r "error" <;> simp [mk_response, hk]
      · cases hk : hasKey r "error" <;> simp [mk_response, hk]
      · intro ps' r' he' hd' hk'
        injection he' with he'
        subst he'
        rw [hd] at hd'
        injection hd' with hd'
        subst hd'
        simp [mk_response, hk']
      · constructor
        · intro h5
          cases hk : hasKey r "error" <;> simp [mk_response, hk] at h5
        · rintro ⟨ps', e, he', hd'⟩
          injection he' with he'
          subst he'
          rw [hd] at hd'
          simp at hd'
    | error e =>
      rw [hd] at h
      injection h with h
      subst h
      refine ⟨?_, ?_, ?_, ?_⟩
      · simp [mk_response, hasKey]
      · simp [mk_response]
      · intro ps' r' he' hd' hk'
        injection he' with he'
        subst he'
        rw [hd] at hd'
        simp at hd'
      · constructor
        · intro h5
          exact ⟨ps, e, rfl, hd⟩
        · intro h5
          simp [mk_response]

/-- Concrete envelope: the 400 answer for an unknown path. -/
def env_w3 : Envelope :=
  { actionGroup := "A", apiPath := "/nope", httpMethod := "GET",
    httpStatusCode := 400,
    body := [("error", .str "Unknown API path: /nope")] }

/-- Concrete event producing `env_w3`. -/
def ev_w3 : Event :=
  { actionGroup := "A", apiPath := "/nope", httpMethod := "GET",
    parameters := [] }

/-- C3 witness: the classification at a concrete envelope. -/
theorem C3_status_witness :
    (lambda_handler cfg0 Pmix N0 ev_w3).1 = .ok env_w3 ∧
    (((env_w3.httpStatusCode = 200) ↔ hasKey env_w3.body "error" = false) ∧
      (env_w3.httpStatusCode = 200 ∨ env_w3.httpStatusCode = 400 ∨
        env_w3.httpStatusCode = 500) ∧
      (∀ ps r, extractParams ev_w3.parameters = .ok ps →
        (dispatch cfg0 Pmix N0 ev_w3.apiPath ps).1 = .ok r →
        hasKey r "error" = true → env_w3.httpStatusCode = 400) ∧
      (env_w3.httpStatusCode = 500 ↔
        ∃ ps e, extractParams ev_w3.parameters = .ok ps ∧
          (dispatch cfg0 Pmix N0 ev_w3.apiPath ps).1 = .error e)) :=
  ⟨rfl, C3_status_code_classification cfg0 Pmix N0 ev_w3 env_w3 rfl⟩

/-- C4 (counterexample): when the second city fails to geocode, the
aggregate of the claim is absent: `calculate_distance` returns exactly the
failed geocode dictionary of the second city alone — there are no
per-city sub-results (`city1` / `city2` keys) in it. -/
theorem C4_failed_city_result_is_not_aggregate :
    (calculate_distance cfg0 Pmix "Portland" "Atlantis"
        none none none none).1 = .ok (noRes "Atlantis") ∧
    hasKey (noRes "Atlantis") "city1" = false ∧
    hasKey (noRes "Atlantis") "city2" = false ∧
    hasKey (noRes "Atlantis") "distance_km" = false := by
  refine ⟨rfl, by decide, by decide, by decide⟩

/-- C4 (amended): whenever a city fails to geocode, `calculate_distance`
returns the first failing geocode result on its own (source lines
387-390): the first city's result whenever it carries an `error` key
(line 388 `return coords1`), and otherwise the second city's result when
that one carries an `error` key (line 390 `return coords2`) — never an
aggregate of both sub-results; in particular the provider failure
dictionaries carry no `distance_km` field. -/
theorem C4_failed_geocode_result_returned (cfg : Config) (P : Providers)
    (c1 c2 : String) (s1 s2 k1 k2 : Option String) :
    (hasKey (get_coordinates cfg P c1 s1 k1).1 "error" = true →
      (calculate_distance cfg P c1 c2 s1 s2 k1 k2).1 =
        .ok (get_coordinates cfg P c1 s1 k1).1) ∧
    (hasKey (get_coordinates cfg P c1 s1 k1).1 "error" = false →
      hasKey (get_coordinates cfg P c2 s2 k2).1 "error" = true →
      (calculate_distance cfg P c1 c2 s1 s2 k1 k2).1 =
        .ok (get_coordinates cfg P c2 s2 k2).1) := by
  constructor
  · intro h1
    simp [calculate_distance, h1]
  · intro h1 h2
    simp [calculate_distance, h1, h2]

/-- C4 witness: both halves of the amended statement — Mu (not found)
failing as the first city, and failing as the second city after Lisbon
(found). -/
theorem C4_failed_geocode_witness :
    hasKey (get_coordinates cfg0 Pmix "Mu" none none).1 "error" = true ∧
    (calculate_distance cfg0 Pmix "Mu" "Lisbon" none none none none).1 =
      .ok (get_coordinates cfg0 Pmix "Mu" none none).1 ∧
    hasKey (get_coordinates cfg0 Pmix "Lisbon" none none).1 "error" = false ∧
    (calculate_distance cfg0 Pmix "Lisbon" "Mu" none none none none).1 =
      .ok (get_coordinates cfg0 Pmix "Mu" none none).1 :=
  ⟨by decide,
    (C4_failed_geocode_result_returned cfg0 Pmix "Mu" "Lisbon"
      none none none none).1 (by decide),
    by decide,
    (C4_failed_geocode_result_returned cfg0 Pmix "Lisbon" "Mu"
      none none none none).2 (by decide) (by decide)⟩

/-- Concrete event: `/coordinates` with no parameters at all. -/
def ev_c5 : Event :=
  { actionGroup := "", apiPath := "/coordinates", httpMethod := "GET",
    parameters := [] }

/-- C5 (counterexample): a `/coordinates` request with the required city
missing is not short-circuited: `get_coordinates` is called with the
empty city and invokes the Nominatim adapter (with the empty query), so
the adapter call list is not empty as the claim requires. -/
theorem C5_adapter_called_on_missing_city :
    (lambda_handler cfg0 Pmix N0 ev_c5).2 = ["nominatim"] ∧
    ¬ (lambda_handler cfg0 Pmix N0 ev_c5).2 = [] := by
  refine ⟨rfl, fun h => ?_⟩
  have h2 : (["nominatim"] : List String) = [] :=
    (rfl : (lambda_handler cfg0 Pmix N0 ev_c5).2 = ["nominatim"]).symm.trans h
  simp at h2

theorem calculate_distance_calls (cfg : Config) (P : Providers)
    (c1 c2 : String) (s1 s2 k1 k2 : Option String) :
    (calculate_distance cfg P c1 c2 s1 s2 k1 k2).2 =
      [chosen_provider cfg, chosen_provider cfg] := by
  simp only [calculate_distance]
  split_ifs <;> simp [get_coordinates_calls]

/-- C5 (amended): the handler has no empty-input short-circuit: every
`/coordinates` or `/distance` request with well-formed parameters invokes
at least one provider adapter (via `get_coordinates`), whether or not the
required city parameters are present or non-empty; the blank-city guard
exists only in `get_coordinates_with_fallback`, which the handler never
calls. -/
theorem C5_no_empty_input_short_circuit (cfg : Config) (P : Providers)
    (N : NeptuneOps) (ev : Event) (ps : List (String × String))
    (hp : ev.apiPath = "/coordinates" ∨ ev.apiPath = "/distance")
    (he : extractParams ev.parameters = .ok ps) :
    ¬ (lambda_handler cfg P N ev).2 = [] := by
  have hd : (lambda_handler cfg P N ev).2 = (dispatch cfg P N ev.apiPath ps).2 := by
    simp [lambda_handler, he]
  rw [hd]
  cases hp with
  | inl h => rw [h]; simp [dispatch, get_coordinates_calls]
  | inr h => rw [h]; simp [dispatch, calculate_distance_calls]

/-- Concrete event: `/distance` with no parameters. -/
def ev_w5 : Event :=
  { actionGroup := "", apiPath := "/distance", httpMethod := "GET",
    parameters := [] }

/-- C5 witness: a `/distance` request with no parameters still invokes
adapters. -/
theorem C5_no_short_circuit_witness :
    (ev_w5.apiPath = "/coordinates" ∨ ev_w5.apiPath = "/distance") ∧
    extractParams ev_w5.parameters = .ok [] ∧
    ¬ (lambda_handler cfg0 Pmix N0 ev_w5).2 = [] :=
  ⟨Or.inr rfl, rfl,
    C5_no_empty_input_short_circuit cfg0 Pmix N0 ev_w5 [] (Or.inr rfl) rfl⟩

theorem distance_payload_ok (a b : Obj) (c1 c2 : String) (r : Obj)
    (h : distance_payload a b c1 c2 = .ok r) :
    r.map Prod.fst = ["city1", "city2", "distance_km", "distance_miles"] := by
  simp only [distance_payload] at h
  repeat' split at h
  all_goals try simp_all
  all_goals (subst h; rfl)

/-- C6 (counterexample): on a successful two-city run the output
dictionary has exactly the keys `city1`, `city2`, `distance_km`,
`distance_miles`: none of the `bearing_degrees`, `direction` and
`straight_line` fields required by the claim is produced. -/
theorem C6_no_bearing_direction_fields :
    keysE (calculate_distance cfg0 Pmix "Portland" "Seattle"
        none none none none).1 =
      some ["city1", "city2", "distance_km", "distance_miles"] ∧
    hasKeyE (calculate_distance cfg0 Pmix "Portland" "Seattle"
        none none none none).1 "bearing_degrees" = false ∧
    hasKeyE (calculate_distance cfg0 Pmix "Portland" "Seattle"
        none none none none).1 "direction" = false ∧
    hasKeyE (calculate_distance cfg0 Pmix "Portland" "Seattle"
        none none none none).1 "straight_line" = false :=
  ⟨rfl, rfl, rfl, rfl⟩

/-- C6 (amended): when both geocodes succeed and the distance body
completes, the distance result carries exactly the fields `city1`,
`city2`, `distance_km` and `distance_miles` (the distances rounded to two
decimals); no bearing, direction or straight-line marker exists in the
code. -/
theorem C6_distance_result_keys (cfg : Config) (P : Providers)
    (c1 c2 : String) (s1 s2 k1 k2 : Option String)
    (h1 : hasKey (get_coordinates cfg P c1 s1 k1).1 "error" = false)
    (h2 : hasKey (get_coordinates cfg P c2 s2 k2).1 "error" = false)
    (h3 : isOkE (calculate_distance cfg P c1 c2 s1 s2 k1 k2).1 = true) :
    keysE (calculate_distance cfg P c1 c2 s1 s2 k1 k2).1 =
      some ["city1", "city2", "distance_km", "distance_miles"] := by
  have hc : (calculate_distance cfg P c1 c2 s1 s2 k1 k2).1 =
      distance_payload (get_coordinates cfg P c1 s1 k1).1
        (get_coordinates cfg P c2 s2 k2).1 c1 c2 := by
    simp [calculate_distance, h1, h2]
  rw [hc] at h3 ⊢
  cases hp : distance_payload (get_coordinates cfg P c1 s1 k1).1
      (get_coordinates cfg P c2 s2 k2).1 c1 c2 with
  | error e => rw [hp] at h3; simp [isOkE] at h3
  | ok r =>
    simp [keysE, distance_payload_ok _ _ _ _ r hp]

/-- C6 witness: the amended key list at a concrete successful run. -/
theorem C6_distance_keys_witness :
    hasKey (get_coordinates cfg0 Pmix "Lyon" none none).1 "error" = false ∧
    hasKey (get_coordinates cfg0 Pmix "Nice" none none).1 "error" = false ∧
    isOkE (calculate_distance cfg0 Pmix "Lyon" "Nice" none none none none).1 = true ∧
    keysE (calculate_distance cfg0 Pmix "Lyon" "Nice" none none none none).1 =
      some ["city1", "city2", "distance_km", "distance_miles"] :=
  ⟨by decide, by decide, by decide,
    C6_distance_result_keys cfg0 Pmix "Lyon" "Nice" none none none none
      (by decide) (by decide) (by decide)⟩

/-- C10: every `/coordinates` request with well-formed parameters invokes
exactly one provider adapter: `geocode_opencage` when the configured
provider is `opencage` and the OpenCage key is non-empty, `geocode_google`
when the configured provider is `google` and the Google key is non-empty,
and `geocode_nominatim` in every other case — whatever the adapter
answers, no other provider is tried on this path. -/
theorem C10_exactly_one_adapter (cfg : Config) (P : Providers)
    (N : NeptuneOps) (ev : Event) (ps : List (String × String))
    (hp : ev.apiPath = "/coordinates")
    (he : extractParams ev.parameters = .ok ps) :
    (lambda_handler cfg P N ev).2 =
      [if cfg.GEOCODING_PROVIDER = "opencage" ∧ cfg.OPENCAGE_API_KEY ≠ "" then
        "opencage"
       else if cfg.GEOCODING_PROVIDER = "google" ∧ cfg.GOOGLE_MAPS_API_KEY ≠ "" then
        "google"
       else "nominatim"] := by
  have hd : (lambda_handler cfg P N ev).2 = (dispatch cfg P N ev.apiPath ps).2 := by
    simp [lambda_handler, he]
  rw [hd, hp]
  simp [dispatch, get_coordinates_calls, chosen_provider]

/-- Concrete event: a well-formed `/coordinates` request. -/
def ev_w10 : Event :=
  { actionGroup := "", apiPath := "/coordinates", httpMethod := "GET",
    parameters := [[("name", "city"), ("value", "Rome")]] }

/-- C10 witness: with the default configuration (provider `nominatim`, no
keys) exactly the Nominatim adapter is invoked. -/
theorem C10_exactly_one_adapter_witness :
    ev_w10.apiPath = "/coordinates" ∧
    extractParams ev_w10.parameters = .ok [("city", "Rome")] ∧
    (lambda_handler cfg0 Pmix N0 ev_w10).2 =
      [if cfg0.GEOCODING_PROVIDER = "opencage" ∧ cfg0.OPENCAGE_API_KEY ≠ "" then
        "opencage"
       else if cfg0.GEOCODING_PROVIDER = "google" ∧ cfg0.GOOGLE_MAPS_API_KEY ≠ "" then
        "google"
       else "nominatim"] :=
  ⟨rfl, rfl, C10_exactly_one_adapter cfg0 Pmix N0 ev_w10 [("city", "Rome")] rfl rfl⟩
